import Mathlib

/-!
Shallow embedding of the Bourgogne geo-enrichment pipeline
(`scripts/enrich_bourgogne_geo.py` and `scripts/fetch_subregion_polygons.py`).

Conventions of the embedding:
* Python `float` values computed from the scoring heuristics are modelled as
  rationals (`ℚ`); every weight in the source is an exact decimal, so no
  floating-point rounding is observable at the granularity of the claims.
* Python's `round(x, n)` is banker's rounding; on every value reachable in
  this code the argument `x * 10^n` is never an exact half-integer (the score
  grid is `s/10`, so `1000 * (s/10) / 2.8 = 250 s / 7` can only be an integer
  when `7 ∣ s`, in which case it is even; all other rounded values are already
  on the `10^-n` grid), so round-half-up agrees with it and is the model.
* A JSON dictionary field that the code reads via `.get` with `isinstance`
  guards is modelled as an `Option`; `none` stands for "absent or of the
  wrong shape", which the source coerces to the same neutral value.
* String primitives (`lower`, `strip`, whitespace splitting, substring test)
  are implemented over `List Char` so that every definition reduces inside
  the kernel; `lower` is ASCII case folding, which covers every string the
  source compares case-insensitively in the claims under study.
-/

/- The arithmetic on `ℚ` is restored to its definitional behaviour so that
claims can be settled on concrete inputs by kernel evaluation. -/
attribute [local semireducible] Rat.mul Rat.add Rat.sub Rat.inv Rat.ofScientific

/-- ASCII lowercase of one character (model of `str.lower` per character). -/
def lowerChar (c : Char) : Char :=
  if c.val ≥ 65 ∧ c.val ≤ 90 then Char.ofNat (c.toNat + 32) else c

/-- `s.lower()` over the character list of a string. -/
def lowerStr (s : String) : String :=
  ⟨s.data.map lowerChar⟩

/-- Whitespace test matching `\s` for the characters that occur here. -/
def isWs (c : Char) : Bool :=
  c = ' ' || c = '\t' || c = '\n' || c = '\r'

/-- `s.strip()` over character lists. -/
def trimChars (l : List Char) : List Char :=
  ((l.dropWhile isWs).reverse.dropWhile isWs).reverse

/-- `s.strip()`. -/
def trimStr (s : String) : String :=
  ⟨trimChars s.data⟩

/-- Split a character list into maximal whitespace-free words
(Python `s.split()` with no separator). -/
def wordsAux (acc : List Char) : List Char → List (List Char)
  | [] => if acc.isEmpty then [] else [acc.reverse]
  | c :: cs =>
    if isWs c then
      if acc.isEmpty then wordsAux [] cs else acc.reverse :: wordsAux [] cs
    else wordsAux (c :: acc) cs

/-- The words of a string. -/
def words (s : String) : List String :=
  (wordsAux [] s.data).map (⟨·⟩)

/-- Join words with single spaces. -/
def joinSpace : List String → String
  | [] => ""
  | [w] => w
  | w :: ws => w ++ " " ++ joinSpace ws

/-- Substring occurrence on character lists: Python's `pat in s`. -/
def charsContain (pat : List Char) : List Char → Bool
  | [] => pat.isEmpty
  | c :: rest => pat.isPrefixOf (c :: rest) || charsContain pat rest

/-- Python's `pat in s` for strings. -/
def strContains (s pat : String) : Bool :=
  charsContain pat.data s.data

/-- `norm_text` (enrich_bourgogne_geo.py:231): collapse whitespace runs to a
single space and strip (`re.sub(r"\s+", " ", value).strip()`); `None` input is
modelled by the empty string. -/
def norm_text (value : String) : String :=
  joinSpace (words value)

/-- The cache key normalisation `query.strip().lower()` used by the
Nominatim clients of both scripts. -/
def normKey (q : String) : String :=
  lowerStr (trimStr q)

/-- `round(x, 3)` on the reachable value grid (see header note). -/
def round3 (q : ℚ) : ℚ :=
  (round (q * 1000) : ℤ) / 1000

/-- `round(x, 6)` on the reachable value grid. -/
def round6 (q : ℚ) : ℚ :=
  (round (q * 1000000) : ℤ) / 1000000

/-! ## Data model -/

/-- `GeocodeResult` dataclass (enrich_bourgogne_geo.py:71). -/
structure GeocodeResult where
  lat : ℚ
  lng : ℚ
  display_name : String
  query : String
  source : String
  confidence : ℚ
deriving DecidableEq, Repr

/-- The nested `address` object of a Nominatim candidate; a field is `none`
when the key is absent (so `dict.get(key, default)` takes the default). -/
structure Address where
  country_code : Option String
  state : Option String
  county : Option String
deriving DecidableEq, Repr

/-- One raw Nominatim candidate, restricted to the fields the code reads.
`lat`/`lon` hold the value of `float(item.get(...))` when that call succeeds
and `none` when it raises (absent key, null, or unparseable text).
`address` is `none` when the `address` entry is not a dict. String fields
with a `""` `.get` default are plain strings. -/
structure Item where
  lat : Option ℚ
  lon : Option ℚ
  display_name : String
  address : Option Address
  cls : String
  typ : String
  country_code : String
deriving DecidableEq, Repr

/-- `COMMON_NOISE_TOKENS` (enrich_bourgogne_geo.py:54). -/
def COMMON_NOISE_TOKENS : List String :=
  ["domaine", "domain", "maison", "les", "du", "de", "la", "le", "des",
   "and", "et", "vinhos", "wine"]

/-- Characters kept by `re.sub(r"[^A-Za-zÀ-ÿ0-9 ]+", " ", name)`. -/
def keepChar (c : Char) : Bool :=
  (decide (65 ≤ c.toNat) && decide (c.toNat ≤ 90)) ||
  (decide (97 ≤ c.toNat) && decide (c.toNat ≤ 122)) ||
  (decide (192 ≤ c.toNat) && decide (c.toNat ≤ 255)) ||
  (decide (48 ≤ c.toNat) && decide (c.toNat ≤ 57)) ||
  decide (c.toNat = 32)

/-- `producer_tokens` (enrich_bourgogne_geo.py:237): strip non-letter
characters, lower-case, split, and keep distinct tokens of length ≥ 4 that
are not generic noise words. The Python set is modelled as a duplicate-free
list (the set is only used for emptiness and membership counting). -/
def producer_tokens (name : String) : List String :=
  let cleaned := lowerStr ⟨name.data.map (fun c => if keepChar c then c else ' ')⟩
  (((words cleaned).filter
      (fun p => decide (p.length ≥ 4) && !(COMMON_NOISE_TOKENS.contains p)))).eraseDups

/-- Whether both coordinate fields of a candidate parse as floats
(the `try: lat = float(...) ... except: continue` guard). -/
def hasCoords (item : Item) : Bool :=
  item.lat.isSome && item.lon.isSome

/-- The additive score one candidate receives inside `pick_best_geocode`
(enrich_bourgogne_geo.py:264-292), given the precomputed producer tokens and
lower-cased expected region. -/
def scoreItem (p_tokens : List String) (exp_region : String) (item : Item) : ℚ :=
  let display := norm_text item.display_name
  let display_l := lowerStr display
  let item_class := lowerStr (norm_text item.cls)
  let item_type := lowerStr (norm_text item.typ)
  let s1 : ℚ :=
    if ["shop", "office", "tourism", "amenity"].contains item_class then 0.6 else 0
  let s2 : ℚ :=
    if strContains item_type "win" || strContains item_type "vine" ||
        strContains display_l "wine" then 0.6 else 0
  let matched : ℕ := (p_tokens.filter (fun t => strContains display_l t)).length
  let s3 : ℚ := if p_tokens ≠ [] then min 1.2 ((matched : ℚ) * 0.4) else 0
  let country :=
    lowerStr (norm_text
      (match item.address with
       | none => item.country_code
       | some a => a.country_code.getD item.country_code))
  let s4 : ℚ := if country = "fr" then 0.3 else 0
  let state :=
    lowerStr (norm_text (match item.address with
       | none => ""
       | some a => a.state.getD ""))
  let county :=
    lowerStr (norm_text (match item.address with
       | none => ""
       | some a => a.county.getD ""))
  let region_blob := state ++ " " ++ county ++ " " ++ display_l
  let s5 : ℚ := if strContains region_blob "bourgogne" then 0.6 else 0
  let s6 : ℚ :=
    if exp_region ≠ "" ∧ strContains display_l exp_region then 0.4 else 0
  s1 + s2 + s3 + s4 + s5 + s6

/-- The shared arg-max loop shape of the scorers: skip invalid entries,
replace the running best only on a strictly greater score
(`if score > best_score`). -/
def argmaxLoop {α : Type} (valid : α → Bool) (score : α → ℚ) :
    List α → Option α × ℚ → Option α × ℚ
  | [], acc => acc
  | x :: rest, acc =>
    if valid x then
      if score x > acc.2 then argmaxLoop valid score rest (some x, score x)
      else argmaxLoop valid score rest acc
    else argmaxLoop valid score rest acc

/-- `pick_best_geocode` (enrich_bourgogne_geo.py:243). `best_item` can only
be set to an item whose coordinates parsed, so the final
`float(best_item["lat"])` re-parse is modelled by `Option.getD`, whose
default branch is unreachable. The Python truthiness test
`if not best_item` coincides with `Option.isNone` because a selected item
always owns a `lat` key, hence is a non-empty dict. -/
def pick_best_geocode (results : List Item) (producer_name : Option String)
    (expected_region : Option String) : Option GeocodeResult :=
  if results.isEmpty then none
  else
    let p_tokens := producer_tokens (producer_name.getD "")
    let exp_region := lowerStr (expected_region.getD "")
    let best := argmaxLoop hasCoords (scoreItem p_tokens exp_region) results (none, -1)
    match best.1 with
    | none => none
    | some item =>
      some
        { lat := item.lat.getD 0
          lng := item.lon.getD 0
          display_name := norm_text item.display_name
          query := ""
          source := "nominatim"
          confidence := round3 (min 0.98 (max 0.2 (best.2 / 2.8))) }

/-! ## Arg-max loop characterisation -/

/-- Specification-side arg-max: the first-listed element attaining the
maximal score (ties keep the earlier element). -/
def firstArgmax {α : Type} (score : α → ℚ) : List α → Option α
  | [] => none
  | x :: xs =>
    match firstArgmax score xs with
    | none => some x
    | some y => if score y > score x then some y else some x

/-! ## Query tiers -/

/-- `try_geocode_subregion` (enrich_bourgogne_geo.py:312): two fixed query
phrasings tried in order; the winner is re-tagged and its confidence floored
at 0.7. The Nominatim client (with its cache state fixed for this run) is
abstracted as the pure query function `ns`. -/
def try_geocode_subregion (ns : String → List Item) (sub_region : String) :
    Option GeocodeResult :=
  let q1 := sub_region ++ ", Bourgogne, France"
  let q2 := sub_region ++ ", Burgundy, France"
  match pick_best_geocode (ns q1) none (some sub_region) with
  | some picked =>
    some { picked with query := q1, source := "sub_region_geocode",
                       confidence := max picked.confidence 0.7 }
  | none =>
    match pick_best_geocode (ns q2) none (some sub_region) with
    | some picked =>
      some { picked with query := q2, source := "sub_region_geocode",
                         confidence := max picked.confidence 0.7 }
    | none => none

/-- The query list of `try_geocode_producer` (enrich_bourgogne_geo.py:332). -/
def producerQueries (producer primary_sub_region : String) : List String :=
  (if primary_sub_region ≠ ""
   then [producer ++ ", " ++ primary_sub_region ++ ", Bourgogne, France"]
   else []) ++
  [producer ++ ", Bourgogne, France",
   producer ++ " winery, Bourgogne, France",
   producer ++ " domaine, Bourgogne, France",
   producer ++ ", Burgundy, France"]

/-- The query loop of `try_geocode_producer`. -/
def tryProducerQueries (ns : String → List Item) (producer primary_sub_region : String) :
    List String → Option GeocodeResult
  | [] => none
  | q :: rest =>
    match pick_best_geocode (ns q) (some producer) (some primary_sub_region) with
    | some picked => some { picked with query := q, source := "producer_geocode" }
    | none => tryProducerQueries ns producer primary_sub_region rest

/-- `try_geocode_producer` (enrich_bourgogne_geo.py:327). An empty
`primary_sub_region` plays the role of Python's falsy `""`/`None`. -/
def try_geocode_producer (ns : String → List Item)
    (producer primary_sub_region : String) : Option GeocodeResult :=
  tryProducerQueries ns producer primary_sub_region
    (producerQueries producer primary_sub_region)

/-! ## Wikidata client and scorer -/

/-- One `wbsearchentities` result, restricted to the fields the code reads;
`""` stands for an absent key (the code immediately `norm_text`s the
values, mapping `None` to `""`). Non-dict entries, which the source skips,
are outside the model (no claim concerns them). -/
structure WdEntity where
  id : String
  label : String
  description : String
deriving DecidableEq, Repr

/-- The additive score of `pick_best_wikidata_entity`
(enrich_bourgogne_geo.py:361-377). -/
def wdScore (tokens : List String) (entity : WdEntity) : ℚ :=
  let label := norm_text entity.label
  let description := norm_text entity.description
  let blob := lowerStr (label ++ " " ++ description)
  let s1 : ℚ :=
    if strContains blob "winery" || strContains blob "wine producer" ||
        strContains blob "wine house" || strContains blob "vineyard" ||
        strContains blob "viticulture" then 1.0 else 0
  let s2 : ℚ :=
    if strContains blob "domaine" || strContains blob "chateau" ||
        strContains blob "maison" then 0.4 else 0
  let matched : ℕ := (tokens.filter (fun t => strContains blob t)).length
  let s3 : ℚ := if tokens ≠ [] then min 1.2 ((matched : ℚ) * 0.4) else 0
  let s4 : ℚ :=
    if strContains blob "france" || strContains blob "burgundy" ||
        strContains blob "bourgogne" then 0.2 else 0
  s1 + s2 + s3 + s4

/-- `pick_best_wikidata_entity` (enrich_bourgogne_geo.py:353). -/
def pick_best_wikidata_entity (results : List WdEntity) (producer : String) :
    Option WdEntity :=
  if results.isEmpty then none
  else
    (argmaxLoop (fun _ => true) (wdScore (producer_tokens producer)) results
      (none, -1)).1

/-- The name-prefix query variants of `try_wikidata_producer`
(enrich_bourgogne_geo.py:387-395). -/
def wikidataQueries (producer : String) : List String :=
  let producer_l := lowerStr producer
  [producer] ++
  (if !(strContains producer_l "domaine") then ["Domaine " ++ producer] else []) ++
  (if !(strContains producer_l "maison") then ["Maison " ++ producer] else []) ++
  (if !(strContains producer_l "chateau") && !(strContains producer_l "château")
   then ["Chateau " ++ producer] else []) ++
  [producer ++ " winery"]

/-- The query loop of `try_wikidata_producer` (enrich_bourgogne_geo.py:397).
`ws` abstracts `client.search_entities`, `wc` abstracts
`client.entity_coordinates` (both stateful only through the cache, which is
fixed within one resolution). -/
def tryWikidataQueries (ws : String → List WdEntity) (wc : String → Option (ℚ × ℚ))
    (producer : String) : List String → Option GeocodeResult
  | [] => none
  | query :: rest =>
    match pick_best_wikidata_entity (ws query) producer with
    | none => tryWikidataQueries ws wc producer rest
    | some best =>
      let entity_id := norm_text best.id
      if entity_id = "" then tryWikidataQueries ws wc producer rest
      else
        match wc entity_id with
        | none => tryWikidataQueries ws wc producer rest
        | some (la, lo) =>
          let label := if norm_text best.label ≠ "" then norm_text best.label else producer
          let description := norm_text best.description
          let display_name :=
            if description ≠ "" then label ++ " (" ++ description ++ ")" else label
          some { lat := la, lng := lo, display_name := display_name, query := query,
                 source := "producer_wikidata", confidence := 0.74 }

/-- `try_wikidata_producer` (enrich_bourgogne_geo.py:386). -/
def try_wikidata_producer (ws : String → List WdEntity)
    (wc : String → Option (ℚ × ℚ)) (producer : String) : Option GeocodeResult :=
  tryWikidataQueries ws wc producer (wikidataQueries producer)

/-! ## Cache store and clients -/

/-- One value of the shared JSON cache file. Search namespaces store raw
candidate lists; the entity namespace stores `{"lat": …, "lng": …}` dicts
whose fields are `null` for a confirmed-absent coordinate. `otherVal` stands
for any other JSON shape (which every reader treats as a miss-typed entry). -/
inductive CacheVal
  | listVal (items : List Item)
  | entityVal (lat lng : Option ℚ)
  | otherVal
deriving DecidableEq

/-- The in-memory cache dictionary, shared by reference between the
Nominatim and Wikidata clients. -/
def Cache : Type := String → Option CacheVal

/-- `self.cache[key] = value`. -/
def cacheInsert (cache : Cache) (key : String) (value : CacheVal) : Cache :=
  fun k => if k = key then some value else cache k

/-- `NominatimClient.search` (enrich_bourgogne_geo.py:134) as a state
transformer over the cache. `net` abstracts `self._request` (rate-limit
sleep, HTTP call, defensive decode) as the deterministic list it returns;
the boolean records whether `_request` ran — on a cache hit there is no
network call and no rate-limit sleep. A cached value that is not a list is
returned as `[]` without touching the network. -/
def NominatimClient_search (net : String → List Item) (cache : Cache)
    (query : String) : List Item × Cache × Bool :=
  let key := normKey query
  match cache key with
  | some cached =>
    (match cached with
     | .listVal l => l
     | _ => [], cache, false)
  | none =>
    let results := net query
    (results, cacheInsert cache key (.listVal results), true)

/-- One geographic-coordinate claim of a Wikidata entity document after the
`mainsnak → datavalue → value` navigation; a field is `none` when the final
value lacks a numeric `latitude`/`longitude`. -/
structure WdCoordClaim where
  latitude : Option ℚ
  longitude : Option ℚ
deriving DecidableEq

/-- The part of one entity document that `entity_coordinates` reads: the
`claims["P625"]` list, each statement reduced to its navigated coordinate
value (`none` when some hop of the navigation is absent or not a dict). -/
structure WdEntityData where
  p625 : List (Option WdCoordClaim)
deriving DecidableEq

/-- The coordinate extraction of `WikidataClient.entity_coordinates`
(enrich_bourgogne_geo.py:208-222): look up the entity in the payload's
`entities` map, take the *first* P625 statement, and require both fields
numeric. A malformed or non-dict payload is the empty entity map. -/
def wd_extract (payload : List (String × WdEntityData)) (entity_id : String) :
    Option (ℚ × ℚ) :=
  match payload.lookup entity_id with
  | none => none
  | some entity =>
    match entity.p625 with
    | [] => none
    | first :: _ =>
      match first with
      | none => none
      | some value =>
        match value.latitude, value.longitude with
        | some la, some lo => some (la, lo)
        | _, _ => none

/-- `WikidataClient.entity_coordinates` (enrich_bourgogne_geo.py:194) as a
state transformer over the shared cache. `payload` abstracts the decoded
response of the entity-detail request; the boolean records whether the
network was consulted. A cache hit that is not a dict with numeric `lat`
and `lng` — in particular the negative entry `{lat: null, lng: null}` —
returns `None` without a network call. -/
def WikidataClient_entity_coordinates (payload : List (String × WdEntityData))
    (cache : Cache) (entity_id : String) : Option (ℚ × ℚ) × Cache × Bool :=
  let key := "wd_entity::" ++ entity_id
  match cache key with
  | some (.entityVal (some la) (some lo)) => (some (la, lo), cache, false)
  | some _ => (none, cache, false)
  | none =>
    match wd_extract payload entity_id with
    | some (la, lo) =>
      (some (la, lo), cacheInsert cache key (.entityVal (some la) (some lo)), true)
    | none => (none, cacheInsert cache key (.entityVal none none), true)

/-! ## Transport faults at the client boundary -/

/-- The exceptions a raw HTTP round trip can raise, plus the JSON decode
failure. -/
inductive NetFault
  | timeout
  | connError
  | jsonDecode
deriving DecidableEq

/-- Outcome of `urlopen(...).read().decode(...)` followed by `json.loads`:
either the HTTP layer raises, or a body is obtained whose JSON decode
succeeds (`some payload`) or fails (`none`). -/
inductive NetOutcome (α : Type)
  | timeout
  | connError
  | ok (decoded : Option α)

/-- A decoded Nominatim response body: a JSON array of candidates or any
other JSON shape. -/
inductive NomPayload
  | arr (items : List Item)
  | notArr
deriving DecidableEq

/-- `NominatimClient._request` (enrich_bourgogne_geo.py:101) restricted to
its fault behaviour. Only `json.JSONDecodeError` is caught (`payload = []`);
the `urlopen` call sits outside any handler, so a socket timeout or
connection error propagates to the caller as an exception (`Except.error`).
A decoded non-list payload is coerced to `[]`. -/
def NominatimClient_request : NetOutcome NomPayload → Except NetFault (List Item)
  | .timeout => .error .timeout
  | .connError => .error .connError
  | .ok none => .ok []
  | .ok (some (.arr items)) => .ok items
  | .ok (some .notArr) => .ok []

/-- `WikidataClient._request_json` (enrich_bourgogne_geo.py:152) restricted
to its fault behaviour, generic in the payload type with `emptyDict` the
model of the `{}` returned when `json.loads` raises. `urlopen` faults
propagate. -/
def WikidataClient_request_json {α : Type} (emptyDict : α) :
    NetOutcome α → Except NetFault α
  | .timeout => .error .timeout
  | .connError => .error .connError
  | .ok none => .ok emptyDict
  | .ok (some payload) => .ok payload

/-- The network portion of `Nominatim.search` in
fetch_subregion_polygons.py:98 (reached on a cache miss). Unlike the
enrichment script, `json.loads` is *not* wrapped in a handler here, so a
malformed body raises `json.JSONDecodeError` in addition to the propagating
`urlopen` faults. A decoded non-list payload is coerced to `[]`. -/
def fetchPolygons_request : NetOutcome NomPayload → Except NetFault (List Item)
  | .timeout => .error .timeout
  | .connError => .error .connError
  | .ok none => .error .jsonDecode
  | .ok (some (.arr items)) => .ok items
  | .ok (some .notArr) => .ok []

/-! ## Polygon scorer (fetch_subregion_polygons.py) -/

/-- `ALLOWED_CLASSES` (fetch_subregion_polygons.py:29). -/
def ALLOWED_CLASSES : List String := ["boundary", "place", "landuse", "natural"]

/-- `ALLOWED_TYPES` (fetch_subregion_polygons.py:30). -/
def ALLOWED_TYPES : List String :=
  ["administrative", "village", "municipality", "hamlet", "quarter", "city",
   "town", "county", "region", "local_authority", "suburb"]

/-- `DISALLOWED_TYPES` (fetch_subregion_polygons.py:43). -/
def DISALLOWED_TYPES : List String :=
  ["place_of_worship", "bicycle_parking", "alcohol", "restaurant", "hotel",
   "supermarket", "house", "yes"]

/-- The `geojson` entry of a candidate, reduced to the one field the scorer
inspects (`geo.get("type", "")`); it stands for the whole geometry dict. -/
structure GeoJsonObj where
  shape_type : String
deriving DecidableEq, Repr

/-- One raw candidate of the polygon fetcher, restricted to the fields read
by `score_candidate`; `geojson` is `none` when the entry is not a dict. -/
structure PolyItem where
  geojson : Option GeoJsonObj
  display_name : String
  address : Option Address
  typ : String
  cls : String
  lat : Option ℚ
  lon : Option ℚ
deriving DecidableEq, Repr

/-- `PolygonCandidate` dataclass (fetch_subregion_polygons.py:68). -/
structure PolygonCandidate where
  geojson : GeoJsonObj
  display_name : String
  item_type : String
  item_class : String
  lat : ℚ
  lon : ℚ
  score : ℚ
deriving DecidableEq, Repr

/-- `score_candidate` (fetch_subregion_polygons.py:135): geometry and
allow/deny filtering, then additive scoring, then the coordinate parse. -/
def score_candidate (item : PolyItem) (sub_region : String) :
    Option PolygonCandidate :=
  match item.geojson with
  | none => none
  | some geo =>
    if ¬ (geo.shape_type = "Polygon" ∨ geo.shape_type = "MultiPolygon") then none
    else
      let display := item.display_name
      let display_l := lowerStr display
      let sr_l := lowerStr sub_region
      let item_type := item.typ
      let item_class := item.cls
      if DISALLOWED_TYPES.contains item_type then none
      else if item_class ≠ "" ∧ ¬ ALLOWED_CLASSES.contains item_class then none
      else if item_type ≠ "" ∧ ¬ ALLOWED_TYPES.contains item_type then none
      else
        let s1 : ℚ := if strContains display_l sr_l then 1.6 else 0
        let s2 : ℚ := if strContains display_l "bourgogne" then 0.8 else 0
        let s3 : ℚ :=
          if ["administrative", "village", "municipality", "hamlet", "quarter",
              "city"].contains item_type then 0.4 else 0
        let s4 : ℚ := if ["boundary", "place"].contains item_class then 0.4 else 0
        let state := lowerStr (match item.address with
          | none => ""
          | some a => a.state.getD "")
        let county := lowerStr (match item.address with
          | none => ""
          | some a => a.county.getD "")
        let s5 : ℚ :=
          if strContains state "bourgogne" || strContains county "cote-d\x27or" ||
              strContains county "saone-et-loire" || strContains county "yonne"
          then 0.4 else 0
        match item.lat, item.lon with
        | some la, some lo =>
          some { geojson := geo, display_name := display, item_type := item_type,
                 item_class := item_class, lat := la, lon := lo,
                 score := s1 + s2 + s3 + s4 + s5 }
        | _, _ => none

/-- Insertion step of a stable descending sort by score: the new element
goes in front of the first already-placed element whose score is not
strictly greater. -/
def insertDesc (c : PolygonCandidate) :
    List PolygonCandidate → List PolygonCandidate
  | [] => [c]
  | d :: ds => if d.score > c.score then d :: insertDesc c ds else c :: d :: ds

/-- `candidates.sort(key=lambda c: c.score, reverse=True)`: Python's sort is
specified to be stable, and a stable sort's output is uniquely determined by
the key order, so any stable implementation is a faithful model; this one is
insertion sort from the right. -/
def stableSortDesc (l : List PolygonCandidate) : List PolygonCandidate :=
  l.foldr insertDesc []

/-- `choose_polygon` (fetch_subregion_polygons.py:189): score and filter all
candidates, stable-sort descending, take the top one. -/
def choose_polygon (results : List PolyItem) (sub_region : String) :
    Option PolygonCandidate :=
  let candidates := results.filterMap (fun item => score_candidate item sub_region)
  (stableSortDesc candidates).head?

/-! ## Pipeline fragments of `run` -/

/-- The hardcoded global fallback (enrich_bourgogne_geo.py:486-493). -/
def hardcodedRegionFallback : GeocodeResult :=
  { lat := 47.052, lng := 4.383, display_name := "Bourgogne, France",
    query := "hardcoded", source := "hardcoded_region_fallback",
    confidence := 0.3 }

/-- The region-wide result (enrich_bourgogne_geo.py:484-493): the sub-region
tier against the literal region name, defaulting to the hardcoded centroid. -/
def region_geo (ns : String → List Item) : GeocodeResult :=
  match try_geocode_subregion ns "Bourgogne" with
  | some geo => geo
  | none => hardcodedRegionFallback

/-- The sub-region geocoding stage (enrich_bourgogne_geo.py:497-502): only
sub-regions whose resolution produced a result enter the map — a miss
stores nothing. -/
def sub_region_geo_map (ns : String → List Item) (sub_regions : List String) :
    List (String × GeocodeResult) :=
  sub_regions.filterMap
    (fun sr => (try_geocode_subregion ns sr).map (fun geo => (sr, geo)))

/-- The per-producer resolution of `run` (enrich_bourgogne_geo.py:521-552):
direct geocode, then Wikidata, then the dominant sub-region's resolved
result at confidence 0.55, then the region-wide result at confidence 0.35.
`subRegionGeo` abstracts the `sub_region_geo` dict built by the sub-region
stage. -/
def producer_geo_step (ns : String → List Item) (ws : String → List WdEntity)
    (wc : String → Option (ℚ × ℚ)) (producer primary_sub_region : String)
    (subRegionGeo : String → Option GeocodeResult) (regionGeo : GeocodeResult) :
    GeocodeResult :=
  match try_geocode_producer ns producer primary_sub_region with
  | some geo => geo
  | none =>
    match try_wikidata_producer ws wc producer with
    | some geo => geo
    | none =>
      match subRegionGeo primary_sub_region with
      | some srg =>
        { lat := srg.lat, lng := srg.lng, display_name := srg.display_name,
          query := srg.query, source := "producer_sub_region_fallback",
          confidence := 0.55 }
      | none =>
        { lat := regionGeo.lat, lng := regionGeo.lng,
          display_name := regionGeo.display_name, query := regionGeo.query,
          source := "producer_region_fallback", confidence := 0.35 }

/-- The `map` block attached to one enriched wine record. -/
structure WineMap where
  lat : ℚ
  lng : ℚ
  source : String
  confidence : ℚ
deriving DecidableEq, Repr

/-- The wine-level coordinate assembly (enrich_bourgogne_geo.py:588-624):
sub-region coordinates floored at confidence 0.68, producer coordinates at
0.5, else the region-wide result at exactly 0.3; coordinates rounded to 6
decimals, confidence to 3. The `getD` defaults are unreachable (guarded by
`isSome`). -/
def wine_map_fields (sub_region producer : String)
    (subRegionGeo producerGeo : String → Option GeocodeResult)
    (regionGeo : GeocodeResult) : WineMap :=
  if sub_region ≠ "" ∧ (subRegionGeo sub_region).isSome then
    let g := (subRegionGeo sub_region).getD regionGeo
    { lat := round6 g.lat, lng := round6 g.lng, source := "sub_region",
      confidence := round3 (max 0.68 g.confidence) }
  else if producer ≠ "" ∧ (producerGeo producer).isSome then
    let g := (producerGeo producer).getD regionGeo
    { lat := round6 g.lat, lng := round6 g.lng, source := "producer",
      confidence := round3 (max 0.5 g.confidence) }
  else
    { lat := round6 regionGeo.lat, lng := round6 regionGeo.lng,
      source := "region", confidence := round3 0.3 }

/-! ## Witness fixtures -/

/-- The mock candidate of the spec's end-to-end Chablis example. -/
def chablisItem : Item :=
  { lat := some 47.81, lon := some 3.79,
    display_name := "Chablis, Yonne, Bourgogne, France",
    address := none, cls := "boundary", typ := "administrative",
    country_code := "" }

/-- What `pick_best_geocode` produces for the Chablis mock
(score 1.0, `round(1.0/2.8, 3) = 0.357`). -/
def chablisPicked : GeocodeResult :=
  { lat := 47.81, lng := 3.79,
    display_name := "Chablis, Yonne, Bourgogne, France", query := "",
    source := "nominatim", confidence := 0.357 }

/-- The resolved Chablis sub-region result (confidence floored at 0.7). -/
def chablisGeo : GeocodeResult :=
  { lat := 47.81, lng := 3.79,
    display_name := "Chablis, Yonne, Bourgogne, France",
    query := "Chablis, Bourgogne, France", source := "sub_region_geocode",
    confidence := 0.7 }

/-- A candidate with no parseable coordinates. -/
def noCoordItem : Item :=
  { lat := none, lon := none, display_name := "Chablis", address := none,
    cls := "", typ := "", country_code := "" }

/-- A mock search oracle answering only the first Chablis phrasing. -/
def chablisSearch : String → List Item :=
  fun q => if q = "Chablis, Bourgogne, France" then [chablisItem] else []

/-! ## Generic facts -/

/-! ## Claims -/

theorem round_mono_of_le {a b : ℚ} (h : a ≤ b) : round a ≤ round b := by
  rw [round_eq, round_eq]
  exact Int.floor_le_floor (by linarith)

theorem round3_mono {a b : ℚ} (h : a ≤ b) : round3 a ≤ round3 b := by
  unfold round3
  have h2 : round (a * 1000) ≤ round (b * 1000) := round_mono_of_le (by nlinarith)
  have := (div_le_div_iff_of_pos_right (c := (1000 : ℚ)) (by norm_num)).mpr
    (show ((round (a * 1000) : ℤ) : ℚ) ≤ ((round (b * 1000) : ℤ) : ℚ) by exact_mod_cast h2)
  simpa using this

example : round3 (1 / 5 : ℚ) = 1 / 5 := by norm_num [round3, round_eq]
example : strContains "chablis, yonne" "yonne" = true := by decide
example : norm_text "  a   b " = "a b" := by decide
example : normKey "  Chablis  " = "chablis" := by decide

theorem firstArgmax_mem {α : Type} (score : α → ℚ) :
    ∀ (xs : List α) (y : α), firstArgmax score xs = some y → y ∈ xs := by
  intro xs
  induction xs with
  | nil => intro y h; simp [firstArgmax] at h
  | cons x rest ih =>
    intro y h
    simp only [firstArgmax] at h
    cases hr : firstArgmax score rest with
    | none => rw [hr] at h; simp_all
    | some z =>
      rw [hr] at h
      by_cases hs : score z > score x
      · simp [hs] at h; subst h; exact List.mem_cons_of_mem _ (ih _ hr)
      · simp [hs] at h; subst h; exact List.mem_cons_self _ _

theorem firstArgmax_is_max {α : Type} (score : α → ℚ) :
    ∀ (xs : List α) (y : α), firstArgmax score xs = some y →
      ∀ x ∈ xs, score x ≤ score y := by
  intro xs
  induction xs with
  | nil => intro y h; simp [firstArgmax] at h
  | cons x rest ih =>
    intro y h w hw
    simp only [firstArgmax] at h
    cases hr : firstArgmax score rest with
    | none =>
      rw [hr] at h
      simp only [Option.some.injEq] at h
      subst h
      rcases List.mem_cons.1 hw with rfl | hw'
      · exact le_refl _
      · exfalso
        cases rest with
        | nil => simp at hw'
        | cons a b =>
          revert hr
          simp only [firstArgmax]
          cases firstArgmax score b <;> simp only [] <;> intro hr
          · exact Option.noConfusion hr
          · split at hr <;> exact Option.noConfusion hr
    | some z =>
      rw [hr] at h
      by_cases hs : score z > score x
      · simp only [hs, if_pos] at h
        cases h
        rcases List.mem_cons.1 hw with rfl | hw'
        · exact le_of_lt hs
        · exact ih _ hr _ hw'
      · simp only [hs, if_neg, not_false_iff] at h
        cases h
        rcases List.mem_cons.1 hw with rfl | hw'
        · exact le_refl _
        · exact le_trans (ih _ hr _ hw') (not_lt.1 hs)

/-- The filtered loop is the plain loop on the filtered list. -/
theorem argmaxLoop_filter {α : Type} (valid : α → Bool) (score : α → ℚ) :
    ∀ (xs : List α) (acc : Option α × ℚ),
      argmaxLoop valid score xs acc =
        argmaxLoop (fun _ => true) score (xs.filter valid) acc := by
  intro xs
  induction xs with
  | nil => intro acc; rfl
  | cons x rest ih =>
    intro acc
    by_cases hv : valid x
    · simp only [argmaxLoop, hv, if_true, List.filter_cons_of_pos hv]
      by_cases hs : score x > acc.2
      · simp only [hs, if_pos, ih]
      · simp only [hs, if_neg, not_false_iff, ih]
    · simp only [argmaxLoop, hv, Bool.false_eq_true, if_false,
        List.filter_cons_of_neg (by simpa using hv), ih]

/-- Invariant of the plain loop: starting from a current best `c` at its own
score, the loop returns the first arg-max of `c :: xs` with ties favouring
`c` and earlier elements. -/
theorem argmaxLoop_inv {α : Type} (score : α → ℚ) :
    ∀ (xs : List α) (c : α),
      argmaxLoop (fun _ => true) score xs (some c, score c) =
        match firstArgmax score xs with
        | none => (some c, score c)
        | some y => if score y > score c then (some y, score y) else (some c, score c) := by
  intro xs
  induction xs with
  | nil => intro c; rfl
  | cons x rest ih =>
    intro c
    simp only [argmaxLoop, if_true, firstArgmax]
    by_cases hxc : score x > score c
    · simp only [hxc, if_pos, ih x]
      cases hr : firstArgmax score rest with
      | none => simp [hxc]
      | some z =>
        by_cases hzx : score z > score x
        · have hzc : score z > score c := lt_trans hxc hzx
          simp [hzx, hzc]
        · simp [hzx, hxc]
    · simp only [hxc, if_neg, not_false_iff, ih c]
      cases hr : firstArgmax score rest with
      | none => simp [hxc]
      | some z =>
        by_cases hzx : score z > score x
        · simp [hzx]
        · have hzc : ¬ score z > score c :=
            not_lt.2 (le_trans (not_lt.1 hzx) (not_lt.1 hxc))
          simp [hzx, hxc, hzc]

/-- The source loops start from `(None, -1.0)`; with non-negative scores the
result is exactly the first-listed maximal element together with its score. -/
theorem argmaxLoop_eq_firstArgmax {α : Type} (score : α → ℚ) (xs : List α)
    (h : ∀ x ∈ xs, 0 ≤ score x) :
    argmaxLoop (fun _ => true) score xs (none, -1) =
      match firstArgmax score xs with
      | none => (none, -1)
      | some y => (some y, score y) := by
  cases xs with
  | nil => rfl
  | cons x rest =>
    have hx : score x > -1 :=
      lt_of_lt_of_le (by norm_num) (h x (List.mem_cons_self _ _))
    simp only [argmaxLoop, if_true, hx, if_pos, firstArgmax]
    rw [argmaxLoop_inv score rest x]
    cases hr : firstArgmax score rest with
    | none => simp
    | some z => by_cases hzx : score z > score x <;> simp [hzx]

theorem scoreItem_nonneg (p_tokens : List String) (exp_region : String)
    (item : Item) : 0 ≤ scoreItem p_tokens exp_region item := by
  unfold scoreItem
  dsimp only
  split_ifs <;> positivity

/-- `pick_best_geocode` returns the first-listed coordinate-parseable
candidate of maximal score, packaged with the rescaled confidence. -/
theorem pick_best_geocode_eq (results : List Item) (producer_name : Option String)
    (expected_region : Option String) :
    pick_best_geocode results producer_name expected_region =
      (firstArgmax
          (scoreItem (producer_tokens (producer_name.getD ""))
            (lowerStr (expected_region.getD "")))
          (results.filter hasCoords)).map
        (fun item =>
          { lat := item.lat.getD 0
            lng := item.lon.getD 0
            display_name := norm_text item.display_name
            query := ""
            source := "nominatim"
            confidence :=
              round3 (min 0.98 (max 0.2
                (scoreItem (producer_tokens (producer_name.getD ""))
                  (lowerStr (expected_region.getD "")) item / 2.8))) }) := by
  unfold pick_best_geocode
  by_cases hempty : results.isEmpty
  · have : results = [] := List.isEmpty_iff.1 hempty
    subst this
    simp [firstArgmax]
  · simp only [hempty, if_false]
    rw [argmaxLoop_filter, argmaxLoop_eq_firstArgmax _ _
      (fun x _ => scoreItem_nonneg _ _ x)]
    cases hfa : firstArgmax
        (scoreItem (producer_tokens (producer_name.getD ""))
          (lowerStr (expected_region.getD "")))
        (results.filter hasCoords) with
    | none => simp
    | some item => simp

theorem wdScore_nonneg (tokens : List String) (entity : WdEntity) :
    0 ≤ wdScore tokens entity := by
  unfold wdScore
  dsimp only
  split_ifs <;> positivity

theorem pick_best_wikidata_entity_eq (results : List WdEntity) (producer : String) :
    pick_best_wikidata_entity results producer =
      firstArgmax (wdScore (producer_tokens producer)) results := by
  unfold pick_best_wikidata_entity
  by_cases hempty : results.isEmpty
  · have : results = [] := List.isEmpty_iff.1 hempty
    subst this
    simp [firstArgmax]
  · simp only [hempty, if_false]
    rw [argmaxLoop_eq_firstArgmax _ _ (fun x _ => wdScore_nonneg _ x)]
    cases firstArgmax (wdScore (producer_tokens producer)) results <;> simp

theorem insertDesc_length (c : PolygonCandidate) :
    ∀ l : List PolygonCandidate, (insertDesc c l).length = l.length + 1 := by
  intro l
  induction l with
  | nil => rfl
  | cons d ds ih =>
    unfold insertDesc
    by_cases h : d.score > c.score
    · simp [h, ih]
    · simp [h]

theorem stableSortDesc_length (l : List PolygonCandidate) :
    (stableSortDesc l).length = l.length := by
  induction l with
  | nil => rfl
  | cons c cs ih =>
    show (insertDesc c (stableSortDesc cs)).length = cs.length + 1
    rw [insertDesc_length, ih]

/-- Head of the stable descending sort = first-listed maximal element. -/
theorem stableSortDesc_head (l : List PolygonCandidate) :
    (stableSortDesc l).head? = firstArgmax (fun c => c.score) l := by
  induction l with
  | nil => rfl
  | cons c cs ih =>
    show (insertDesc c (stableSortDesc cs)).head? = _
    cases hm : stableSortDesc cs with
    | nil =>
      have hcs : cs = [] := by
        have := stableSortDesc_length cs
        rw [hm] at this
        exact List.length_eq_zero.1 this.symm
      subst hcs
      simp [insertDesc, firstArgmax]
    | cons d ds =>
      have hd : firstArgmax (fun c => c.score) cs = some d := by
        rw [← ih, hm]; rfl
      unfold insertDesc
      by_cases h : d.score > c.score
      · simp only [firstArgmax, hd, h, if_pos, if_true]
        rfl
      · simp only [firstArgmax, hd, h, if_neg, not_false_iff, if_false]
        rfl

theorem firstArgmax_ne_none {α : Type} (score : α → ℚ) (xs : List α)
    (h : xs ≠ []) : firstArgmax score xs ≠ none := by
  cases xs with
  | nil => exact absurd rfl h
  | cons x rest =>
    simp only [firstArgmax]
    cases firstArgmax score rest with
    | none => simp
    | some y => by_cases hs : score y > score x <;> simp [hs]

theorem round3_of_fifth : round3 (0.2 : ℚ) = 0.2 := by
  norm_num [round3, round_eq]

theorem round3_of_ninetyeight : round3 (0.98 : ℚ) = 0.98 := by
  norm_num [round3, round_eq]

/-- C8: In every scorer (place/POI scorer, knowledge-base entity scorer,
polygon scorer), a candidate replaces the current best only when its score
is strictly greater, so among equal top scores the first-listed candidate
is selected: each scorer equals the first-listed arg-max of its admissible
candidates. The scorers are pure functions of the candidate list and
context, so the winner is the same on every invocation. -/
theorem C8_scorers_pick_first_listed_max :
    (∀ (results : List Item) (producer_name expected_region : Option String),
      pick_best_geocode results producer_name expected_region =
        (firstArgmax
            (scoreItem (producer_tokens (producer_name.getD ""))
              (lowerStr (expected_region.getD "")))
            (results.filter hasCoords)).map
          (fun item =>
            { lat := item.lat.getD 0
              lng := item.lon.getD 0
              display_name := norm_text item.display_name
              query := ""
              source := "nominatim"
              confidence :=
                round3 (min 0.98 (max 0.2
                  (scoreItem (producer_tokens (producer_name.getD ""))
                    (lowerStr (expected_region.getD "")) item / 2.8))) })) ∧
    (∀ (results : List WdEntity) (producer : String),
      pick_best_wikidata_entity results producer =
        firstArgmax (wdScore (producer_tokens producer)) results) ∧
    (∀ (results : List PolyItem) (sub_region : String),
      choose_polygon results sub_region =
        firstArgmax (fun c => c.score)
          (results.filterMap (fun item => score_candidate item sub_region))) :=
  ⟨pick_best_geocode_eq, pick_best_wikidata_entity_eq,
   fun results sub_region =>
     stableSortDesc_head (results.filterMap (fun item => score_candidate item sub_region))⟩

/-- C9: `pick_best_geocode` silently skips candidates whose lat/lon do not
parse as floats, so a coordinate-less candidate can never be selected; when
no candidate has parseable coordinates it returns `None` (no exception, no
partial result), and any returned result carries the coordinates of some
parseable input candidate. -/
theorem C9_unparseable_never_selected (results : List Item)
    (producer_name expected_region : Option String) :
    (results.filter hasCoords = [] →
      pick_best_geocode results producer_name expected_region = none) ∧
    (∀ r, pick_best_geocode results producer_name expected_region = some r →
      ∃ item ∈ results, hasCoords item = true ∧
        item.lat = some r.lat ∧ item.lon = some r.lng) := by
  constructor
  · intro hfil
    rw [pick_best_geocode_eq, hfil]
    rfl
  · intro r hr
    rw [pick_best_geocode_eq] at hr
    cases hfa : firstArgmax
        (scoreItem (producer_tokens (producer_name.getD ""))
          (lowerStr (expected_region.getD "")))
        (results.filter hasCoords) with
    | none => rw [hfa] at hr; exact absurd hr (by simp)
    | some item =>
      rw [hfa] at hr
      have hr' := Option.some.inj hr
      have hmem := firstArgmax_mem _ _ _ hfa
      have hmem' := List.mem_filter.1 hmem
      have hco : (item.lat.isSome && item.lon.isSome) = true := hmem'.2
      rw [Bool.and_eq_true] at hco
      obtain ⟨a, ha⟩ := Option.isSome_iff_exists.1 hco.1
      obtain ⟨b, hb⟩ := Option.isSome_iff_exists.1 hco.2
      refine ⟨item, hmem'.1, hmem'.2, ?_, ?_⟩
      · rw [← hr']; simp [ha]
      · rw [← hr']; simp [hb]

/-- C9 witness: a single coordinate-less candidate is filtered out and the
scorer returns `None`. -/
theorem C9_witness :
    [noCoordItem].filter hasCoords = [] ∧
    pick_best_geocode [noCoordItem] none none = none :=
  ⟨by decide, (C9_unparseable_never_selected [noCoordItem] none none).1 (by decide)⟩

/-- C3: For every non-empty candidate list containing at least one candidate
with parseable lat/lon, `pick_best_geocode` returns a result whose
confidence equals `round(min(0.98, max(0.2, best_score / 2.8)), 3)` — where
`best_score` is the score of the winning (maximal) candidate — and is
therefore always within `[0.2, 0.98]`. -/
theorem C3_confidence_clamped (results : List Item)
    (producer_name expected_region : Option String)
    (h : results.filter hasCoords ≠ []) :
    ∃ r, pick_best_geocode results producer_name expected_region = some r ∧
      (∃ best ∈ results.filter hasCoords,
        (∀ item ∈ results.filter hasCoords,
          scoreItem (producer_tokens (producer_name.getD ""))
              (lowerStr (expected_region.getD "")) item ≤
            scoreItem (producer_tokens (producer_name.getD ""))
              (lowerStr (expected_region.getD "")) best) ∧
        r.confidence = round3 (min 0.98 (max 0.2
          (scoreItem (producer_tokens (producer_name.getD ""))
            (lowerStr (expected_region.getD "")) best / 2.8)))) ∧
      0.2 ≤ r.confidence ∧ r.confidence ≤ 0.98 := by
  cases hfa : firstArgmax
      (scoreItem (producer_tokens (producer_name.getD ""))
        (lowerStr (expected_region.getD "")))
      (results.filter hasCoords) with
  | none => exact absurd hfa (firstArgmax_ne_none _ _ h)
  | some best =>
    refine ⟨_, by rw [pick_best_geocode_eq, hfa]; rfl,
      ⟨best, firstArgmax_mem _ _ _ hfa, firstArgmax_is_max _ _ _ hfa, rfl⟩, ?_, ?_⟩
    · calc (0.2 : ℚ) = round3 0.2 := round3_of_fifth.symm
        _ ≤ _ := round3_mono (le_min (by norm_num) (le_max_left _ _))
    · calc round3 (min 0.98 (max 0.2
            (scoreItem (producer_tokens (producer_name.getD ""))
              (lowerStr (expected_region.getD "")) best / 2.8))) ≤ round3 0.98 :=
          round3_mono (min_le_left _ _)
        _ = 0.98 := round3_of_ninetyeight

/-- C3 witness: the Chablis mock candidate scores 1.0 and receives
confidence `round(1.0/2.8, 3) = 0.357`, inside `[0.2, 0.98]`. -/
theorem C3_witness :
    [chablisItem].filter hasCoords ≠ [] ∧
    ∃ r, pick_best_geocode [chablisItem] none (some "Chablis") = some r ∧
      (∃ best ∈ [chablisItem].filter hasCoords,
        (∀ item ∈ [chablisItem].filter hasCoords,
          scoreItem (producer_tokens "") (lowerStr "Chablis") item ≤
            scoreItem (producer_tokens "") (lowerStr "Chablis") best) ∧
        r.confidence = round3 (min 0.98 (max 0.2
          (scoreItem (producer_tokens "") (lowerStr "Chablis") best / 2.8)))) ∧
      0.2 ≤ r.confidence ∧ r.confidence ≤ 0.98 :=
  ⟨by decide, C3_confidence_clamped [chablisItem] none (some "Chablis") (by decide)⟩

/-- C10: Every enriched wine record's map confidence is at least 0.3: the
wine-level assembly floors sub-region-sourced coordinates at confidence
0.68, producer-sourced coordinates at 0.5, and assigns exactly 0.3 for the
region fallback. -/
theorem C10_wine_confidence_floors (sub_region producer : String)
    (subRegionGeo producerGeo : String → Option GeocodeResult)
    (regionGeo : GeocodeResult) :
    0.3 ≤ (wine_map_fields sub_region producer subRegionGeo producerGeo
      regionGeo).confidence ∧
    ((wine_map_fields sub_region producer subRegionGeo producerGeo
        regionGeo).source = "sub_region" →
      0.68 ≤ (wine_map_fields sub_region producer subRegionGeo producerGeo
        regionGeo).confidence) ∧
    ((wine_map_fields sub_region producer subRegionGeo producerGeo
        regionGeo).source = "producer" →
      0.5 ≤ (wine_map_fields sub_region producer subRegionGeo producerGeo
        regionGeo).confidence) ∧
    ((wine_map_fields sub_region producer subRegionGeo producerGeo
        regionGeo).source = "region" →
      (wine_map_fields sub_region producer subRegionGeo producerGeo
        regionGeo).confidence = 0.3) := by
  have h68 : (0.68 : ℚ) = round3 0.68 := by norm_num [round3, round_eq]
  have h50 : (0.5 : ℚ) = round3 0.5 := by norm_num [round3, round_eq]
  have h30 : (0.3 : ℚ) = round3 0.3 := by norm_num [round3, round_eq]
  unfold wine_map_fields
  split_ifs with h1 h2
  · have hc : (0.68 : ℚ) ≤ round3 (max 0.68
        (((subRegionGeo sub_region).getD regionGeo).confidence)) :=
      h68.le.trans (round3_mono (le_max_left _ _))
    exact ⟨le_trans (by norm_num) hc, fun _ => hc,
      fun hs => by simp at hs, fun hs => by simp at hs⟩
  · have hc : (0.5 : ℚ) ≤ round3 (max 0.5
        (((producerGeo producer).getD regionGeo).confidence)) :=
      h50.le.trans (round3_mono (le_max_left _ _))
    exact ⟨le_trans (by norm_num) hc, fun hs => by simp at hs,
      fun _ => hc, fun hs => by simp at hs⟩
  · exact ⟨h30.le.trans (le_refl _), fun hs => by simp at hs,
      fun hs => by simp at hs, fun _ => h30.symm⟩

/-- C10 witness: a wine with no resolvable sub-region or producer receives
the region fallback at confidence exactly 0.3. -/
theorem C10_witness :
    (wine_map_fields "" "" (fun _ => none) (fun _ => none)
      hardcodedRegionFallback).source = "region" ∧
    (wine_map_fields "" "" (fun _ => none) (fun _ => none)
      hardcodedRegionFallback).confidence = 0.3 :=
  ⟨by decide,
   (C10_wine_confidence_floors "" "" (fun _ => none) (fun _ => none)
     hardcodedRegionFallback).2.2.2 (by decide)⟩

/-- C2: When both the direct geocode tier and the Wikidata tier fail for a
producer, a resolved dominant sub-region supplies the coordinates with
source `producer_sub_region_fallback` at confidence exactly 0.55; otherwise
the region-wide result is used with source `producer_region_fallback` at
confidence exactly 0.35. -/
theorem C2_producer_fallback_tiers (ns : String → List Item)
    (ws : String → List WdEntity) (wc : String → Option (ℚ × ℚ))
    (producer primary_sub_region : String)
    (subRegionGeo : String → Option GeocodeResult) (regionGeo : GeocodeResult)
    (hdirect : try_geocode_producer ns producer primary_sub_region = none)
    (hwd : try_wikidata_producer ws wc producer = none) :
    (∀ srg, subRegionGeo primary_sub_region = some srg →
      producer_geo_step ns ws wc producer primary_sub_region subRegionGeo
          regionGeo =
        { lat := srg.lat, lng := srg.lng, display_name := srg.display_name,
          query := srg.query, source := "producer_sub_region_fallback",
          confidence := 0.55 }) ∧
    (subRegionGeo primary_sub_region = none →
      producer_geo_step ns ws wc producer primary_sub_region subRegionGeo
          regionGeo =
        { lat := regionGeo.lat, lng := regionGeo.lng,
          display_name := regionGeo.display_name, query := regionGeo.query,
          source := "producer_region_fallback", confidence := 0.35 }) := by
  constructor
  · intro srg hsrg
    unfold producer_geo_step
    rw [hdirect, hwd, hsrg]
  · intro hnone
    unfold producer_geo_step
    rw [hdirect, hwd, hnone]

/-- C2 witness: the spec's "Domaine Test" example — every geocode and
knowledge-base query mocked empty, dominant sub-region Chablis resolved —
yields the Chablis coordinates at confidence 0.55. -/
theorem C2_witness :
    try_geocode_producer (fun _ => []) "Domaine Test" "Chablis" = none ∧
    try_wikidata_producer (fun _ => []) (fun _ => none) "Domaine Test" = none ∧
    producer_geo_step (fun _ => []) (fun _ => []) (fun _ => none)
        "Domaine Test" "Chablis"
        (fun s => if s = "Chablis" then some chablisGeo else none)
        hardcodedRegionFallback =
      { lat := 47.81, lng := 3.79,
        display_name := "Chablis, Yonne, Bourgogne, France",
        query := "Chablis, Bourgogne, France",
        source := "producer_sub_region_fallback", confidence := 0.55 } :=
  ⟨by decide, by decide,
   (C2_producer_fallback_tiers (fun _ => []) (fun _ => []) (fun _ => none)
       "Domaine Test" "Chablis"
       (fun s => if s = "Chablis" then some chablisGeo else none)
       hardcodedRegionFallback (by decide) (by decide)).1 chablisGeo (by decide)⟩

/-- C1 counterexample: a sub-region entity can leave the resolution pipeline
with *no* GeocodeResult. With every geocode query returning no candidates,
`try_geocode_subregion` returns `None` for the sub-region "Chablis", and the
sub-region stage of `run` (lines 498-502) stores nothing for it — there is
no lower tier for sub-regions, contradicting "resolution terminates with
exactly one GeocodeResult — never none" for every entity. -/
theorem C1_counterexample :
    try_geocode_subregion (fun _ => []) "Chablis" = none ∧
    sub_region_geo_map (fun _ => []) ["Chablis"] = [] :=
  ⟨by decide, by decide⟩

/-- C1 (amended): every *producer* that enters the pipeline terminates with
exactly one GeocodeResult (`producer_geo_step` is total); when every tier
fails, the result carries the hardcoded global centroid (lat 47.052,
lng 4.383) — the region-wide result itself has confidence 0.3, and the
producer's final fallback tier re-tags it at confidence 0.35. Sub-region
entities, by contrast, may leave the pipeline with no result. -/
theorem C1_producer_pipeline_total (ns : String → List Item)
    (ws : String → List WdEntity) (wc : String → Option (ℚ × ℚ))
    (producer primary_sub_region : String)
    (subRegionGeo : String → Option GeocodeResult)
    (hregion : try_geocode_subregion ns "Bourgogne" = none)
    (hdirect : try_geocode_producer ns producer primary_sub_region = none)
    (hwd : try_wikidata_producer ws wc producer = none)
    (hsr : subRegionGeo primary_sub_region = none) :
    region_geo ns =
      { lat := 47.052, lng := 4.383, display_name := "Bourgogne, France",
        query := "hardcoded", source := "hardcoded_region_fallback",
        confidence := 0.3 } ∧
    producer_geo_step ns ws wc producer primary_sub_region subRegionGeo
        (region_geo ns) =
      { lat := 47.052, lng := 4.383, display_name := "Bourgogne, France",
        query := "hardcoded", source := "producer_region_fallback",
        confidence := 0.35 } := by
  have h1 : region_geo ns =
      { lat := 47.052, lng := 4.383, display_name := "Bourgogne, France",
        query := "hardcoded", source := "hardcoded_region_fallback",
        confidence := 0.3 } := by
    unfold region_geo
    rw [hregion]
    rfl
  refine ⟨h1, ?_⟩
  unfold producer_geo_step
  rw [hdirect, hwd, hsr, h1]

/-- C1 witness: the amended claim at a concrete input where every tier
fails. -/
theorem C1_witness :
    try_geocode_subregion (fun _ => []) "Bourgogne" = none ∧
    producer_geo_step (fun _ => []) (fun _ => []) (fun _ => none)
        "Domaine Test" "" (fun _ => none) (region_geo (fun _ => [])) =
      { lat := 47.052, lng := 4.383, display_name := "Bourgogne, France",
        query := "hardcoded", source := "producer_region_fallback",
        confidence := 0.35 } :=
  ⟨by decide,
   (C1_producer_pipeline_total (fun _ => []) (fun _ => []) (fun _ => none)
     "Domaine Test" "" (fun _ => none)
     (by decide) (by decide) (by decide) (by decide)).2⟩

/-- C4 counterexample: a socket timeout inside `NominatimClient._request`
propagates past the client (the `urlopen` call sits outside any handler),
and in the polygon fetcher even a malformed JSON body raises — contradicting
"timeouts, connection errors, and malformed JSON … no exception from these
faults ever propagates past the client". -/
theorem C4_counterexample :
    NominatimClient_request NetOutcome.timeout = Except.error NetFault.timeout ∧
    fetchPolygons_request (NetOutcome.ok (none : Option NomPayload)) =
      Except.error NetFault.jsonDecode :=
  ⟨rfl, rfl⟩

/-- C4 (amended): only malformed JSON bodies are absorbed, and only in the
two enrichment-script clients (coerced to an empty/neutral result); socket
timeouts and connection errors propagate out of every client, and the
polygon fetcher's client propagates malformed JSON as well. -/
theorem C4_fault_boundary :
    (∀ decoded : Option NomPayload,
      ∃ items, NominatimClient_request (.ok decoded) = .ok items) ∧
    (∀ (α : Type) (emptyDict : α) (decoded : Option α),
      ∃ payload, WikidataClient_request_json emptyDict (.ok decoded) = .ok payload) ∧
    NominatimClient_request .timeout = .error .timeout ∧
    NominatimClient_request .connError = .error .connError ∧
    (∀ (α : Type) (emptyDict : α),
      WikidataClient_request_json emptyDict .timeout = .error .timeout ∧
      WikidataClient_request_json emptyDict .connError = .error .connError) ∧
    fetchPolygons_request .timeout = .error .timeout ∧
    fetchPolygons_request .connError = .error .connError ∧
    fetchPolygons_request (.ok none) = .error .jsonDecode := by
  refine ⟨?_, ?_, rfl, rfl, fun α e => ⟨rfl, rfl⟩, rfl, rfl, rfl⟩
  · intro decoded
    cases decoded with
    | none => exact ⟨[], rfl⟩
    | some payload => cases payload with
      | arr items => exact ⟨items, rfl⟩
      | notArr => exact ⟨[], rfl⟩
  · intro α e decoded
    cases decoded with
    | none => exact ⟨e, rfl⟩
    | some payload => exact ⟨payload, rfl⟩

/-- C5: the cache key is the whitespace-trimmed, lower-cased query; on a
miss, the first call hits the network, writes the raw decoded result — even
an empty list — into the cache before returning, and a second call with any
equivalent query returns the identical data from the cache with no network
call (and hence no rate-limit delay) and no cache change. -/
theorem C5_cache_idempotence (net : String → List Item) (cache : Cache)
    (q q2 : String) (hkey : normKey q2 = normKey q)
    (hmiss : cache (normKey q) = none) :
    (NominatimClient_search net cache q).2.2 = true ∧
    (NominatimClient_search net cache q).1 = net q ∧
    (NominatimClient_search net cache q).2.1 (normKey q) =
      some (CacheVal.listVal (NominatimClient_search net cache q).1) ∧
    NominatimClient_search net (NominatimClient_search net cache q).2.1 q2 =
      ((NominatimClient_search net cache q).1,
       (NominatimClient_search net cache q).2.1, false) := by
  have hfirst : NominatimClient_search net cache q =
      (net q, cacheInsert cache (normKey q) (.listVal (net q)), true) := by
    unfold NominatimClient_search
    dsimp only
    rw [hmiss]
  refine ⟨by rw [hfirst], by rw [hfirst], ?_, ?_⟩
  · rw [hfirst]
    show cacheInsert cache (normKey q) (.listVal (net q)) (normKey q) = _
    unfold cacheInsert
    simp
  · rw [hfirst]
    show NominatimClient_search net
        (cacheInsert cache (normKey q) (.listVal (net q))) q2 = _
    unfold NominatimClient_search
    dsimp only
    have : cacheInsert cache (normKey q) (.listVal (net q)) (normKey q2) =
        some (.listVal (net q)) := by
      unfold cacheInsert
      simp [hkey]
    rw [this]

/-- C5 witness: a confirmed-empty result for `" Chablis "` is cached and the
equivalent query `"chablis"` is answered from the cache without a second
network call. -/
theorem C5_witness :
    normKey "chablis" = normKey " Chablis " ∧
    (fun _ => none : Cache) (normKey " Chablis ") = none ∧
    NominatimClient_search (fun _ => []) ((NominatimClient_search (fun _ => [])
        (fun _ => none) " Chablis ").2.1) "chablis" =
      ((NominatimClient_search (fun _ => []) (fun _ => none) " Chablis ").1,
       (NominatimClient_search (fun _ => []) (fun _ => none) " Chablis ").2.1,
       false) :=
  ⟨by decide, rfl,
   (C5_cache_idempotence (fun _ => []) (fun _ => none) " Chablis " "chablis"
     (by decide) rfl).2.2.2⟩

/-- C6: `try_geocode_subregion` tries exactly the phrasings
`"<name>, Bourgogne, France"` then `"<name>, Burgundy, France"` in that
order; the first phrasing whose candidates produce a scored pick wins, and
every returned result carries source `sub_region_geocode` with confidence
`max(picked, 0.7) ≥ 0.7`. -/
theorem C6_subregion_phrasings (ns : String → List Item) (sr : String) :
    (∀ p, pick_best_geocode (ns (sr ++ ", Bourgogne, France")) none (some sr) =
        some p →
      try_geocode_subregion ns sr =
        some { p with query := sr ++ ", Bourgogne, France",
                      source := "sub_region_geocode",
                      confidence := max p.confidence 0.7 }) ∧
    (pick_best_geocode (ns (sr ++ ", Bourgogne, France")) none (some sr) = none →
      ∀ p, pick_best_geocode (ns (sr ++ ", Burgundy, France")) none (some sr) =
          some p →
        try_geocode_subregion ns sr =
          some { p with query := sr ++ ", Burgundy, France",
                        source := "sub_region_geocode",
                        confidence := max p.confidence 0.7 }) ∧
    (pick_best_geocode (ns (sr ++ ", Bourgogne, France")) none (some sr) = none →
      pick_best_geocode (ns (sr ++ ", Burgundy, France")) none (some sr) = none →
      try_geocode_subregion ns sr = none) ∧
    (∀ r, try_geocode_subregion ns sr = some r →
      r.source = "sub_region_geocode" ∧ 0.7 ≤ r.confidence) := by
  refine ⟨?_, ?_, ?_, ?_⟩
  · intro p hp
    unfold try_geocode_subregion
    dsimp only
    rw [hp]
  · intro h1 p hp
    unfold try_geocode_subregion
    dsimp only
    rw [h1, hp]
  · intro h1 h2
    unfold try_geocode_subregion
    dsimp only
    rw [h1, h2]
  · intro r hr
    unfold try_geocode_subregion at hr
    dsimp only at hr
    cases hq1 : pick_best_geocode (ns (sr ++ ", Bourgogne, France")) none
        (some sr) with
    | some p =>
      rw [hq1] at hr
      have := Option.some.inj hr
      rw [← this]
      exact ⟨rfl, le_max_right _ _⟩
    | none =>
      rw [hq1] at hr
      cases hq2 : pick_best_geocode (ns (sr ++ ", Burgundy, France")) none
          (some sr) with
      | some p =>
        rw [hq2] at hr
        have := Option.some.inj hr
        rw [← this]
        exact ⟨rfl, le_max_right _ _⟩
      | none => rw [hq2] at hr; exact absurd hr (by simp)

/-- C6 witness: the spec's Chablis mock — one administrative candidate for
the first phrasing — resolves with source `sub_region_geocode` and
confidence `max(0.357, 0.7) = 0.7`. -/
theorem C6_witness :
    pick_best_geocode (chablisSearch ("Chablis" ++ ", Bourgogne, France")) none
        (some "Chablis") = some chablisPicked ∧
    try_geocode_subregion chablisSearch "Chablis" =
      some { chablisPicked with query := "Chablis" ++ ", Bourgogne, France",
                                source := "sub_region_geocode",
                                confidence := max chablisPicked.confidence 0.7 } :=
  ⟨by decide,
   (C6_subregion_phrasings chablisSearch "Chablis").1 chablisPicked (by decide)⟩

/-- C7: an entity-coordinate lookup finding no coordinate claim writes the
explicit negative entry `{lat: null, lng: null}` into the cache before
returning `None`; any later lookup against a cache holding that entry
returns "no coordinate" with no network call — it neither retries nor
fabricates a coordinate. -/
theorem C7_negative_cache (payload : List (String × WdEntityData))
    (cache : Cache) (entity_id : String)
    (hmiss : cache ("wd_entity::" ++ entity_id) = none)
    (hnoclaim : wd_extract payload entity_id = none) :
    WikidataClient_entity_coordinates payload cache entity_id =
      (none, cacheInsert cache ("wd_entity::" ++ entity_id)
        (.entityVal none none), true) ∧
    (∀ (payload2 : List (String × WdEntityData)) (cache2 : Cache),
      cache2 ("wd_entity::" ++ entity_id) = some (.entityVal none none) →
      WikidataClient_entity_coordinates payload2 cache2 entity_id =
        (none, cache2, false)) := by
  constructor
  · unfold WikidataClient_entity_coordinates
    dsimp only
    rw [hmiss, hnoclaim]
  · intro payload2 cache2 hneg
    unfold WikidataClient_entity_coordinates
    dsimp only
    rw [hneg]

/-- C7 witness: entity `Q42` against an empty payload — the first lookup
writes the negative entry; the second lookup, against the updated cache,
reports no coordinate without the network. -/
theorem C7_witness :
    (fun _ => none : Cache) ("wd_entity::" ++ "Q42") = none ∧
    wd_extract [] "Q42" = none ∧
    WikidataClient_entity_coordinates [] (fun _ => none) "Q42" =
      (none, cacheInsert (fun _ => none) ("wd_entity::" ++ "Q42")
        (.entityVal none none), true) ∧
    WikidataClient_entity_coordinates []
        (cacheInsert (fun _ => none) ("wd_entity::" ++ "Q42")
          (.entityVal none none)) "Q42" =
      (none, cacheInsert (fun _ => none) ("wd_entity::" ++ "Q42")
        (.entityVal none none), false) :=
  ⟨rfl, rfl,
   (C7_negative_cache [] (fun _ => none) "Q42" rfl rfl).1,
   (C7_negative_cache [] (fun _ => none) "Q42" rfl rfl).2 []
     (cacheInsert (fun _ => none) ("wd_entity::" ++ "Q42") (.entityVal none none))
     (by decide)⟩
